import Mathlib

/-!
Verification of the WinX-Ray exporter
(`pymontecarlo/program/winxray/exporter.py`).

The exporter maps a generic `Options` description of a Monte Carlo
simulation (beam, geometry, detectors, limits, physical models) onto the
flat configuration record (`OptionsFile`, here `WxrOptions`) consumed by
the external WinX-Ray program, and writes it to `<options.name>.wxc`.

Python floats are modelled as exact rationals (`ℚ`); raised exceptions as
`Except ExporterError`; `warnings.warn` as an accumulated list of message
strings.  Python's `math.degrees` multiplies by `180 / math.pi` where
`math.pi` is the double closest to π; we model it with that same rational
constant (`qpi`).
-/

deriving instance DecidableEq for Except

/-- Errors the exporter can raise.  `configurationConflict` models the
`ExporterException` raised for inconsistent delimited-detector openings;
`unsupportedModel` models the key-error on a missing model-mapping entry. -/
inductive ExporterError where
  | configurationConflict
  | unsupportedModel
  deriving DecidableEq, Repr

/-- Constants of `winxraytools.configuration.EvPerChannel`. -/
inductive EvPerChannelType where
  | type5
  | type10
  | type20
  | type40
  deriving DecidableEq, Repr

/-- Constants of `winxraytools.configuration.ElectronElasticCrossSection`. -/
inductive ElectronElasticCrossSectionType where
  | mottTabulated
  | mottTabulatedLinear
  | mottTabulatedPowerLaw
  | mottTabulatedCubicSpline
  | mottParametrizedHD
  | rutherford
  | rutherfordRelativistic
  deriving DecidableEq, Repr

/-- Constants of `winxraytools.configuration.IonizationCrossSection`. -/
inductive IonizationCrossSectionType where
  | casnati
  deriving DecidableEq, Repr

/-- Constants of `winxraytools.configuration.IonizationPotential`. -/
inductive IonizationPotentialType where
  | joyLuo
  deriving DecidableEq, Repr

/-- Constants of `winxraytools.configuration.RandomNumberGenerator`. -/
inductive RandomNumberGeneratorType where
  | ran1
  | ran2
  | ran3
  | ran4
  deriving DecidableEq, Repr

/-- Constants of `winxraytools.configuration.DirectionCosine`. -/
inductive DirectionCosineType where
  | demers
  deriving DecidableEq, Repr

/-- Constants of `winxraytools.configuration.EnergyLoss`. -/
inductive EnergyLossType where
  | joyLuo
  deriving DecidableEq, Repr

/-- Constants of `winxraytools.configuration.MassAbsorptionCoefficient`. -/
inductive MassAbsorptionCoefficientType where
  | heinrich
  | henke
  | thinhLeroux
  deriving DecidableEq, Repr

/-- Modelled from the spec: a delimited detector (class
`_DelimitedDetector` of `pymontecarlo.options.detector`, not under
`src/`) "carries a takeoff angle and an azimuthal angular range"; its
angular opening is the pair of an elevation range and an azimuth range,
and it also exposes a solid angle.  Angles are radians. -/
structure DelimitedDetector where
  elevation_rad : ℚ × ℚ
  azimuth_rad : ℚ × ℚ
  solidangle_sr : ℚ
  deriving DecidableEq, Repr

/-- Modelled from the spec: the takeoff angle carried by a delimited
detector is the midpoint of its elevation range. -/
def DelimitedDetector.takeoffangle_rad (d : DelimitedDetector) : ℚ :=
  (d.elevation_rad.1 + d.elevation_rad.2) / 2

/-- Modelled from the spec: `equivalent_opening` (from
`pymontecarlo.options.detector`, not under `src/`) — "two detectors are
equivalent if their angular openings match exactly". -/
def equivalent_opening (d1 d2 : DelimitedDetector) : Bool :=
  decide (d1.elevation_rad = d2.elevation_rad ∧ d1.azimuth_rad = d2.azimuth_rad)

/-- The detector kinds registered in `Exporter.__init__`.  The photon
detectors are the delimited ones (the converter tests exercise
`PhotonDepthDetector`, `PhotonIntensityDetector` and
`PhotonSpectrumDetector` with elevation/azimuth openings). -/
inductive Detector where
  | backscatteredElectronEnergy (channels : ℕ)
  | backscatteredElectronPolarAngular (channels : ℕ)
  | photonDepth (delim : DelimitedDetector) (channels : ℕ)
  | photonIntensity (delim : DelimitedDetector)
  | photonSpectrum (delim : DelimitedDetector) (channels : ℕ)
  | electronFraction
  | time
  deriving DecidableEq, Repr

/-- The delimited part of a detector, when the detector is a
`_DelimitedDetector` (mirrors `iterclass(_DelimitedDetector)` membership). -/
def Detector.delimitedPart : Detector → Option DelimitedDetector
  | .photonDepth d _ => some d
  | .photonIntensity d => some d
  | .photonSpectrum d _ => some d
  | _ => none

/-- `pymontecarlo.options.beam.GaussianBeam`, restricted to the fields the
exporter reads. -/
structure GaussianBeam where
  energy_eV : ℚ
  diameter_m : ℚ
  origin_m : ℚ × ℚ × ℚ
  deriving DecidableEq, Repr

/-- A material: composition as (atomic number, weight fraction) items and
the electron absorption energy read by `_geometry_substrate`. -/
structure Material where
  composition : List (ℕ × ℚ)
  absorption_energy_electron_eV : ℚ
  density_kg_m3 : ℚ
  deriving DecidableEq, Repr

/-- `pymontecarlo.options.geometry.Substrate`, restricted to the fields
the exporter reads. -/
structure Substrate where
  material : Material
  tilt_rad : ℚ
  rotation_rad : ℚ
  deriving DecidableEq, Repr

/-- Modelled from the spec: `get_materials` of a substrate geometry (not
under `src/`) returns its single body material. -/
def Substrate.get_materials (g : Substrate) : List Material :=
  [g.material]

/-- Simulation limits; only `ShowersLimit` has a registered exporter. -/
inductive Limit where
  | showers (n : ℕ)
  deriving DecidableEq, Repr

/-- A selected physical model: the category together with the name of the
selected enum value (Python dict keys are the enum values; we identify
them by their names). -/
inductive SelectedModel where
  | elasticCrossSection (name : String)
  | ionizationCrossSection (name : String)
  | ionizationPotential (name : String)
  | randomNumberGenerator (name : String)
  | directionCosine (name : String)
  | energyLoss (name : String)
  | massAbsorptionCoefficient (name : String)
  deriving DecidableEq, Repr

/-- The generic `Options` object, restricted to what the exporter reads:
a name, a Gaussian beam, a substrate geometry, a keyed detector
collection, limits and selected models. -/
structure Options where
  name : String
  beam : GaussianBeam
  geometry : Substrate
  detectors : List (String × Detector)
  limits : List Limit
  models : List SelectedModel
  deriving DecidableEq, Repr

/-- The WinX-Ray configuration record
(`winxraytools.configuration.OptionsFile.OptionsFile`), restricted to the
fields the exporter sets.  `Option`-valued fields start unset. -/
structure WxrOptions where
  resultsPath : Option String := none
  saveFile : Bool := false
  xrayCompute : Bool := false
  xrayComputeBackground : Bool := false
  xrayComputeCharacteristic : Bool := false
  computeBSEDistribution : Bool := false
  computeBSEDepth : Bool := false
  computeBSERadial : Bool := false
  computeBSESpatial : Bool := false
  computeBSELateral : Bool := false
  computeBSEEnergy : Bool := false
  computeBSEAngular : Bool := false
  computeSEDistribution : Bool := false
  computeEnergyLossDistribution : Bool := false
  computeEnergyLossDepth : Bool := false
  computeEnergyLossLateral : Bool := false
  computeEnergyLossSpatial : Bool := false
  computeEnergyLossRadial : Bool := false
  computeElectronDistribution : Bool := false
  computeElectronDepth : Bool := false
  computeElectronRadial : Bool := false
  computeElectronSpatial : Bool := false
  computeElectronLateral : Bool := false
  toa_deg : Option ℚ := none
  angleThetaDetector_deg : Option ℚ := none
  anglePhiDetector_deg : Option ℚ := none
  userDefineSolidAngle : Bool := false
  solidAngle_sr : Option ℚ := none
  multiEnergy : Bool := false
  incidentEnergy_keV : Option ℚ := none
  startEnergy_keV : Option ℚ := none
  endEnergy_keV : Option ℚ := none
  stepEnergy_keV : Option ℚ := none
  nbStepEnergy : Option ℕ := none
  beamDiameter_nm : Option ℚ := none
  elements : Option (List ℕ × List ℚ) := none
  minimumElectronEnergy_eV : Option ℚ := none
  nbBSEEnergy : Option ℕ := none
  nbBSEAngular : Option ℕ := none
  numberFilm : Option ℕ := none
  typeEVChannel : Option EvPerChannelType := none
  numberChannel : Option ℤ := none
  nbElectron : Option ℕ := none
  typeElectronElasticCrossSection : Option ElectronElasticCrossSectionType := none
  typeIonizationCrossSection : Option IonizationCrossSectionType := none
  typeIonisationPotential : Option IonizationPotentialType := none
  typeRandomGenerator : Option RandomNumberGeneratorType := none
  typeDirectionCosines : Option DirectionCosineType := none
  typeEnergyLoss : Option EnergyLossType := none
  typeMac : Option MassAbsorptionCoefficientType := none
  deriving DecidableEq, Repr

/-- The double value of Python's `math.pi`, used by `math.degrees`. -/
def qpi : ℚ := 3.141592653589793

/-- Python's `math.degrees`: radians to degrees. -/
def degrees (x : ℚ) : ℚ := x * 180 / qpi

namespace Exporter

/-- Warning message of `_beam_gaussian` for a non-zero beam origin. -/
def beamPositionWarning : String := "No beam position in WinX-Ray"

/-- Warning message of `_geometry_substrate` about user-defined density. -/
def densityWarning : String := "WinXRay does not support user defined density"

/-- Warning message of `_geometry_substrate` for a non-zero tilt. -/
def tiltWarning : String := "WinXRay does not support sample tilt. Use beam tilt instead."

/-- Warning message of `_geometry_substrate` for a non-zero rotation. -/
def rotationWarning : String := "WinXRay does not support sample rotation."

/-- `_beam_gaussian`: energy eV to keV (divide by 1000), diameter m to nm
(multiply by 1e9); warns when the beam origin is not (0, 0, 0). -/
def beam_gaussian (beam : GaussianBeam) (w : WxrOptions) (ws : List String) :
    WxrOptions × List String :=
  let energy_keV := beam.energy_eV / 1000
  let w := { w with multiEnergy := false,
                    incidentEnergy_keV := some energy_keV,
                    startEnergy_keV := some energy_keV,
                    endEnergy_keV := some energy_keV,
                    stepEnergy_keV := some 1,
                    nbStepEnergy := some 1,
                    beamDiameter_nm := some (beam.diameter_m * 1e9) }
  if beam.origin_m ≠ (0, 0, 0) then (w, ws ++ [beamPositionWarning]) else (w, ws)

/-- The minimum electron absorption energy over the geometry's materials
(`min(mat.absorption_energy_eV[ELECTRON] for mat in get_materials())`).
The empty case is unreachable: a substrate has one material. -/
def minAbsorptionEnergy (g : Substrate) : ℚ :=
  match g.get_materials.map (fun m => m.absorption_energy_electron_eV) with
  | [] => 0
  | x :: xs => xs.foldl min x

/-- `_geometry_substrate`: sets the element/weight-fraction lists, always
warns about density, warns on non-zero tilt or rotation, and sets the
minimum electron energy. -/
def geometry_substrate (options : Options) (geometry : Substrate)
    (w : WxrOptions) (ws : List String) : WxrOptions × List String :=
  let composition := geometry.material.composition
  let zs := composition.map Prod.fst
  let wfs := composition.map Prod.snd
  let w := { w with elements := some (zs, wfs) }
  let ws := ws ++ [densityWarning]
  let ws := if options.geometry.tilt_rad ≠ 0 then ws ++ [tiltWarning] else ws
  let ws := if options.geometry.rotation_rad ≠ 0 then ws ++ [rotationWarning] else ws
  let w := { w with minimumElectronEnergy_eV := some (minAbsorptionEnergy options.geometry) }
  (w, ws)

/-- `_detector_backscattered_electron_energy`. -/
def detector_backscattered_electron_energy (channels : ℕ) (w : WxrOptions) :
    WxrOptions :=
  { w with computeBSEDistribution := true, computeBSEEnergy := true,
           nbBSEEnergy := some channels }

/-- `_detector_backscattered_electron_polar_angular`. -/
def detector_backscattered_electron_polar_angular (channels : ℕ)
    (w : WxrOptions) : WxrOptions :=
  { w with computeBSEDistribution := true, computeBSEAngular := true,
           nbBSEAngular := some channels }

/-- `_detector_photondetector` (photon depth detector). -/
def detector_photondetector (channels : ℕ) (w : WxrOptions) : WxrOptions :=
  { w with xrayCompute := true, xrayComputeCharacteristic := true,
           numberFilm := some channels }

/-- `_detector_photon_intensity`. -/
def detector_photon_intensity (w : WxrOptions) : WxrOptions :=
  { w with xrayCompute := true, xrayComputeCharacteristic := true }

/-- `_detector_photon_spectrum`: buckets the energy per channel into four
bands, each fixing a channel-width constant and a channel count computed
by floor division of the beam energy by the width. -/
def detector_photon_spectrum (options : Options) (channels : ℕ)
    (w : WxrOptions) : WxrOptions :=
  let w := { w with xrayCompute := true, xrayComputeBackground := true,
                    xrayComputeCharacteristic := true }
  let ev_per_channel := options.beam.energy_eV / (channels : ℚ)
  if ev_per_channel < 10 then
    { w with typeEVChannel := some .type5,
             numberChannel := some (Rat.floor (options.beam.energy_eV / 5)) }
  else if ev_per_channel < 20 then
    { w with typeEVChannel := some .type10,
             numberChannel := some (Rat.floor (options.beam.energy_eV / 10)) }
  else if ev_per_channel < 40 then
    { w with typeEVChannel := some .type20,
             numberChannel := some (Rat.floor (options.beam.energy_eV / 20)) }
  else
    { w with typeEVChannel := some .type40,
             numberChannel := some (Rat.floor (options.beam.energy_eV / 40)) }

/-- `_detector_electron_fraction`: turns on the BSE distribution and BSE
energy flags ("Required to get distribution"). -/
def detector_electron_fraction (w : WxrOptions) : WxrOptions :=
  { w with computeBSEDistribution := true, computeBSEEnergy := true }

/-- Dispatch of the registered per-detector exporters
(`self._detector_exporters`); `_detector_time` does nothing. -/
def export_one_detector (options : Options) (det : Detector)
    (w : WxrOptions) : WxrOptions :=
  match det with
  | .backscatteredElectronEnergy channels =>
      detector_backscattered_electron_energy channels w
  | .backscatteredElectronPolarAngular channels =>
      detector_backscattered_electron_polar_angular channels w
  | .photonDepth _ channels => detector_photondetector channels w
  | .photonIntensity _ => detector_photon_intensity w
  | .photonSpectrum _ channels => detector_photon_spectrum options channels w
  | .electronFraction => detector_electron_fraction w
  | .time => w

/-- The flag resets at the start of `_export_detectors` ("Deactivate all
detectors"). -/
def deactivate_detectors (w : WxrOptions) : WxrOptions :=
  { w with xrayCompute := false,
           xrayComputeBackground := false,
           xrayComputeCharacteristic := false,
           computeBSEDistribution := false,
           computeBSEDepth := false,
           computeBSERadial := false,
           computeBSESpatial := false,
           computeBSELateral := false,
           computeBSEEnergy := false,
           computeBSEAngular := false,
           computeSEDistribution := false,
           computeEnergyLossDistribution := false,
           computeEnergyLossDepth := false,
           computeEnergyLossLateral := false,
           computeEnergyLossSpatial := false,
           computeEnergyLossRadial := false,
           computeElectronDistribution := false,
           computeElectronDepth := false,
           computeElectronRadial := false,
           computeElectronSpatial := false,
           computeElectronLateral := false }

/-- The delimited detectors of the options, in collection order
(`options.detectors.iterclass(_DelimitedDetector)` then `itemgetter(1)`). -/
def delimitedDetectors (options : Options) : List DelimitedDetector :=
  options.detectors.filterMap (fun nd => nd.2.delimitedPart)

/-- The consecutive-pairs opening check
(`all(map(equivalent_opening, dets[:-1], dets[1:]))`). -/
def consecutiveEquivalent (dets : List DelimitedDetector) : Bool :=
  (dets.zip dets.tail).all fun p => equivalent_opening p.1 p.2

/-- `_export_detectors`: deactivates every compute flag, dispatches the
per-detector exporters, raises on inconsistent openings among two or more
delimited detectors, and fills the detector-position fields from the first
delimited detector when one exists. -/
def export_detectors (options : Options) (w : WxrOptions) :
    Except ExporterError WxrOptions :=
  let w := deactivate_detectors w
  let w := options.detectors.foldl (fun w nd => export_one_detector options nd.2 w) w
  let dets := delimitedDetectors options
  if 2 ≤ dets.length ∧ consecutiveEquivalent dets = false then
    .error .configurationConflict
  else
    match dets with
    | [] => .ok w
    | d :: _ =>
      let toa_deg := degrees d.takeoffangle_rad
      let phi_deg := degrees ((d.azimuth_rad.1 + d.azimuth_rad.2) / 2)
      .ok { w with toa_deg := some toa_deg,
                   angleThetaDetector_deg := some (90 - toa_deg),
                   anglePhiDetector_deg := some phi_deg,
                   userDefineSolidAngle := true,
                   solidAngle_sr := some d.solidangle_sr }

/-- `_limit_showers`: copies the shower count verbatim. -/
def limit_showers (n : ℕ) (w : WxrOptions) : WxrOptions :=
  { w with nbElectron := some n }

/-- Dispatch of the registered per-limit exporters; only `ShowersLimit`
is registered. -/
def export_limits (options : Options) (w : WxrOptions) : WxrOptions :=
  options.limits.foldl (fun w l => match l with | .showers n => limit_showers n w) w

/-- The mapping table of `_model_elastic_cross_section`. -/
def elasticCrossSectionTable : List (String × ElectronElasticCrossSectionType) :=
  [("mott_czyzewski1990", .mottTabulated),
   ("mott_czyzewski1990_linear", .mottTabulatedLinear),
   ("mott_czyzewski1990_powerlaw", .mottTabulatedPowerLaw),
   ("mott_czyzewski1990_cubicspline", .mottTabulatedCubicSpline),
   ("mott_demers", .mottParametrizedHD),
   ("rutherford", .rutherford),
   ("rutherford_relativistic", .rutherfordRelativistic)]

/-- `_model_elastic_cross_section`: table lookup; a missing key is the
unsupported-model error. -/
def model_elastic_cross_section (m : String) (w : WxrOptions) :
    Except ExporterError WxrOptions :=
  match elasticCrossSectionTable.lookup m with
  | some t => .ok { w with typeElectronElasticCrossSection := some t }
  | none => .error .unsupportedModel

/-- The mapping table of `_model_ionization_cross_section`. -/
def ionizationCrossSectionTable : List (String × IonizationCrossSectionType) :=
  [("casnati1982", .casnati)]

/-- `_model_ionization_cross_section`. -/
def model_ionization_cross_section (m : String) (w : WxrOptions) :
    Except ExporterError WxrOptions :=
  match ionizationCrossSectionTable.lookup m with
  | some t => .ok { w with typeIonizationCrossSection := some t }
  | none => .error .unsupportedModel

/-- The mapping table of `_model_ionization_potential`. -/
def ionizationPotentialTable : List (String × IonizationPotentialType) :=
  [("joy_luo1989", .joyLuo)]

/-- `_model_ionization_potential`. -/
def model_ionization_potential (m : String) (w : WxrOptions) :
    Except ExporterError WxrOptions :=
  match ionizationPotentialTable.lookup m with
  | some t => .ok { w with typeIonisationPotential := some t }
  | none => .error .unsupportedModel

/-- The mapping table of `_model_random_number_generator`. -/
def randomNumberGeneratorTable : List (String × RandomNumberGeneratorType) :=
  [("press1966_rand1", .ran1),
   ("press1966_rand2", .ran2),
   ("press1966_rand3", .ran3),
   ("press1966_rand4", .ran4)]

/-- `_model_random_number_generator`. -/
def model_random_number_generator (m : String) (w : WxrOptions) :
    Except ExporterError WxrOptions :=
  match randomNumberGeneratorTable.lookup m with
  | some t => .ok { w with typeRandomGenerator := some t }
  | none => .error .unsupportedModel

/-- The mapping table of `_model_direction_cosine`. -/
def directionCosineTable : List (String × DirectionCosineType) :=
  [("demers2000", .demers)]

/-- `_model_direction_cosine`. -/
def model_direction_cosine (m : String) (w : WxrOptions) :
    Except ExporterError WxrOptions :=
  match directionCosineTable.lookup m with
  | some t => .ok { w with typeDirectionCosines := some t }
  | none => .error .unsupportedModel

/-- The mapping table of `_model_energy_loss`. -/
def energyLossTable : List (String × EnergyLossType) :=
  [("joy_luo1989", .joyLuo)]

/-- `_model_energy_loss`. -/
def model_energy_loss (m : String) (w : WxrOptions) :
    Except ExporterError WxrOptions :=
  match energyLossTable.lookup m with
  | some t => .ok { w with typeEnergyLoss := some t }
  | none => .error .unsupportedModel

/-- The mapping table of `_model_mass_absorption_coefficient`. -/
def massAbsorptionCoefficientTable : List (String × MassAbsorptionCoefficientType) :=
  [("heinrich_ixcom11", .heinrich),
   ("henke1993", .henke),
   ("thinh_leroux1979", .thinhLeroux)]

/-- `_model_mass_absorption_coefficient`. -/
def model_mass_absorption_coefficient (m : String) (w : WxrOptions) :
    Except ExporterError WxrOptions :=
  match massAbsorptionCoefficientTable.lookup m with
  | some t => .ok { w with typeMac := some t }
  | none => .error .unsupportedModel

/-- Dispatch of the registered per-model-category exporters
(`self._model_exporters`). -/
def export_one_model (m : SelectedModel) (w : WxrOptions) :
    Except ExporterError WxrOptions :=
  match m with
  | .elasticCrossSection s => model_elastic_cross_section s w
  | .ionizationCrossSection s => model_ionization_cross_section s w
  | .ionizationPotential s => model_ionization_potential s w
  | .randomNumberGenerator s => model_random_number_generator s w
  | .directionCosine s => model_direction_cosine s w
  | .energyLoss s => model_energy_loss s w
  | .massAbsorptionCoefficient s => model_mass_absorption_coefficient s w

/-- The model-export stage on a list of selected models: each runs its
category's exporter in turn; the first missing mapping aborts the export. -/
def export_models_list : List SelectedModel → WxrOptions → Except ExporterError WxrOptions
  | [], w => .ok w
  | m :: t, w =>
    match export_one_model m w with
    | .ok w' => export_models_list t w'
    | .error e => .error e

/-- The model-export stage over the options' selected models. -/
def export_models (options : Options) (w : WxrOptions) :
    Except ExporterError WxrOptions :=
  export_models_list options.models w

/-- Modelled from the spec: the base `Exporter._run_exporters` (not under
`src/`) dispatches the registered stage exporters over the options; the
stage order is beam, geometry, detectors, limits, models.  Only the
detector and model stages can fail. -/
def run_exporters (options : Options) (w : WxrOptions) :
    Except ExporterError (WxrOptions × List String) :=
  let bw := beam_gaussian options.beam w []
  let gw := geometry_substrate options options.geometry bw.1 bw.2
  match export_detectors options gw.1 with
  | .error e => .error e
  | .ok w2 =>
    let w3 := export_limits options w2
    match export_models options w3 with
    | .error e => .error e
    | .ok w4 => .ok (w4, gw.2)

/-- `export_wxroptions`: builds a fresh record, stores the results path
when given, sets the save-file default and runs the stage exporters. -/
def export_wxroptions (options : Options) (dirpath : Option String) :
    Except ExporterError (WxrOptions × List String) :=
  let w : WxrOptions := {}
  let w := match dirpath with
           | some dp => { w with resultsPath := some dp }
           | none => w
  let w := { w with saveFile := true }
  run_exporters options w

/-- The number of target configuration records an export call produces:
the exporter constructs exactly one `OptionsFile` per successful call and
none when it raises. -/
def recordCount (r : Except ExporterError (WxrOptions × List String)) : ℕ :=
  match r with
  | .ok _ => 1
  | .error _ => 0

/-- Whether a selected model has an entry in its category's mapping table
(the key set of the corresponding Python dict). -/
def modelSupported : SelectedModel → Bool
  | .elasticCrossSection s => (elasticCrossSectionTable.lookup s).isSome
  | .ionizationCrossSection s => (ionizationCrossSectionTable.lookup s).isSome
  | .ionizationPotential s => (ionizationPotentialTable.lookup s).isSome
  | .randomNumberGenerator s => (randomNumberGeneratorTable.lookup s).isSome
  | .directionCosine s => (directionCosineTable.lookup s).isSome
  | .energyLoss s => (energyLossTable.lookup s).isSome
  | .massAbsorptionCoefficient s => (massAbsorptionCoefficientTable.lookup s).isSome

/-- Whether a path string starts with the separator (is absolute). -/
def startsWithSep (s : String) : Bool :=
  decide (s.data.head? = some '/')

/-- Whether a path string ends with the separator. -/
def endsWithSep (s : String) : Bool :=
  decide (s.data.getLast? = some '/')

/-- Python's `os.path.join` for two components: an absolute second
component replaces the first; otherwise they are joined with a slash
unless the first is empty or already ends with one. -/
def pathJoin (a b : String) : String :=
  if startsWithSep b then b
  else if a = "" then b
  else if endsWithSep a then a ++ b
  else a ++ "/" ++ b

/-- The observable outcome of `_export`: the paths the configuration was
written to, the returned path, the record and the warnings. -/
structure ExportResult where
  written : List String
  returned : String
  record : WxrOptions
  warnings : List String
  deriving DecidableEq, Repr

/-- `_export`: exports the options to a record, writes it once to
`os.path.join(dirpath, options.name + ".wxc")` and returns that path. -/
def export_file (options : Options) (dirpath : String) :
    Except ExporterError ExportResult :=
  match export_wxroptions options (some dirpath) with
  | .error e => .error e
  | .ok (w, ws) =>
    let filepath := pathJoin dirpath (options.name ++ ".wxc")
    .ok ⟨[filepath], filepath, w, ws⟩

end Exporter

/-- Detector kinds whose exporter sets the X-ray compute flag. -/
def setsXrayCompute : Detector → Bool
  | .photonDepth _ _ => true
  | .photonIntensity _ => true
  | .photonSpectrum _ _ => true
  | _ => false

/-- Detector kinds whose exporter sets the X-ray background flag. -/
def setsXrayComputeBackground : Detector → Bool
  | .photonSpectrum _ _ => true
  | _ => false

/-- Detector kinds whose exporter sets the X-ray characteristic flag. -/
def setsXrayComputeCharacteristic : Detector → Bool
  | .photonDepth _ _ => true
  | .photonIntensity _ => true
  | .photonSpectrum _ _ => true
  | _ => false

/-- Detector kinds whose exporter sets the BSE distribution flag. -/
def setsComputeBSEDistribution : Detector → Bool
  | .backscatteredElectronEnergy _ => true
  | .backscatteredElectronPolarAngular _ => true
  | .electronFraction => true
  | _ => false

/-- Detector kinds whose exporter sets the BSE energy flag (note that the
electron-fraction detector sets it too, "Required to get distribution"). -/
def setsComputeBSEEnergy : Detector → Bool
  | .backscatteredElectronEnergy _ => true
  | .electronFraction => true
  | _ => false

/-- Detector kinds whose exporter sets the BSE angular flag. -/
def setsComputeBSEAngular : Detector → Bool
  | .backscatteredElectronPolarAngular _ => true
  | _ => false

/-- The channel-width constant the spectrum exporter picks for energy `e`
and channel count `c`. -/
def evChannelType (e c : ℚ) : EvPerChannelType :=
  if e / c < 10 then .type5
  else if e / c < 20 then .type10
  else if e / c < 40 then .type20
  else .type40

/-- The channel width in eV the spectrum exporter divides by. -/
def evChannelWidth (e c : ℚ) : ℚ :=
  if e / c < 10 then 5
  else if e / c < 20 then 10
  else if e / c < 40 then 20
  else 40

/-- The detector-dispatch fold of `_export_detectors`: deactivate all
flags, then run each registered per-detector exporter. -/
def detectorsFold (options : Options) (w : WxrOptions) : WxrOptions :=
  options.detectors.foldl (fun v nd => Exporter.export_one_detector options nd.2 v)
    (Exporter.deactivate_detectors w)

/-- The options with beam origin, sample tilt and sample rotation reset to
their supported defaults; the exporter's warnings say it falls back to
these values. -/
def zeroPositioning (options : Options) : Options :=
  { options with
    beam := { options.beam with origin_m := (0, 0, 0) },
    geometry := { options.geometry with tilt_rad := 0, rotation_rad := 0 } }

/-- Copper material fixture for the concrete checks. -/
def fixMat : Material := ⟨[(29, 1)], 50, 8960⟩

/-- Substrate fixture without tilt or rotation. -/
def fixGeom : Substrate := ⟨fixMat, 0, 0⟩

/-- Substrate fixture with tilt and rotation. -/
def fixGeomTilted : Substrate := ⟨fixMat, 1, 2⟩

/-- Beam fixture: 1234 eV, 10 nm diameter, centred origin. -/
def fixBeam : GaussianBeam := ⟨1234, 1e-8, (0, 0, 0)⟩

/-- Beam fixture with an unsupported non-zero origin. -/
def fixBeamOff : GaussianBeam := ⟨1234, 1e-8, (1, 0, 0)⟩

/-- Delimited-detector fixture. -/
def fixDet1 : DelimitedDetector := ⟨(0, 1), (2, 3), 1⟩

/-- Delimited-detector fixture with the same opening as `fixDet1` but a
different solid angle. -/
def fixDet1b : DelimitedDetector := ⟨(0, 1), (2, 3), 4⟩

/-- Delimited-detector fixture with a different elevation opening. -/
def fixDet2 : DelimitedDetector := ⟨(1, 1), (2, 3), 1⟩

/-- Options fixture with two delimited detectors of differing openings. -/
def fixOptsConflict : Options :=
  ⟨"Test", fixBeam, fixGeom,
   [("xray", .photonIntensity fixDet1), ("xray2", .photonIntensity fixDet2)],
   [.showers 5678], []⟩

/-- Options fixture with two delimited detectors of equivalent openings
and one supported model. -/
def fixOptsSame : Options :=
  ⟨"Test", fixBeam, fixGeom,
   [("xray", .photonIntensity fixDet1), ("prz", .photonDepth fixDet1b 1000)],
   [.showers 5678], [.randomNumberGenerator "press1966_rand1"]⟩

/-- Options fixture with a single delimited detector. -/
def fixOptsSingle : Options :=
  ⟨"Test", fixBeam, fixGeom, [("xray", .photonIntensity fixDet1)],
   [.showers 5678], []⟩

/-- Options fixture whose only detector is an electron-fraction detector. -/
def fixOptsFraction : Options :=
  ⟨"Test", fixBeam, fixGeom, [("fraction", .electronFraction)],
   [.showers 1], []⟩

/-- Options fixture whose only detector is a time detector. -/
def fixOptsTime : Options :=
  ⟨"Test", fixBeam, fixGeom, [("time", .time)], [.showers 1], []⟩

/-- Options fixture exercising all three unsupported-feature warnings. -/
def fixOptsWarn : Options :=
  ⟨"Test", fixBeamOff, fixGeomTilted, [("xray", .photonIntensity fixDet1)],
   [.showers 5678], []⟩

/-- The record produced for `fixOptsWarn` (defaulting on error). -/
def fixWarnResult : WxrOptions × List String :=
  (Exporter.export_wxroptions fixOptsWarn none).toOption.getD ({}, [])

/-- The export outcome for `fixOptsSame` into directory "outdir"
(defaulting on error). -/
def fixExportResult : Exporter.ExportResult :=
  (Exporter.export_file fixOptsSame "outdir").toOption.getD ⟨[], "", {}, []⟩

/-- The detector-stage record for `fixOptsTime` (defaulting on error). -/
def fixTimeRecord : WxrOptions :=
  (Exporter.export_detectors fixOptsTime {}).toOption.getD {}

/-- The detector-stage record for `fixOptsSingle` (defaulting on error). -/
def fixSingleRecord : WxrOptions :=
  (Exporter.export_detectors fixOptsSingle {}).toOption.getD {}

/-- The record and warnings produced for `fixOptsSame` (defaulting on
error). -/
def fixSameResult : WxrOptions × List String :=
  (Exporter.export_wxroptions fixOptsSame none).toOption.getD ({}, [])

open Exporter

section Theorems

attribute [local semireducible] Rat.mul Rat.inv Rat.add Rat.sub Rat.ofScientific

/-- Unfolding of `equivalent_opening`: equality of both angular ranges. -/
theorem equivalent_opening_eq_true_iff {a b : DelimitedDetector} :
    equivalent_opening a b = true ↔
      a.elevation_rad = b.elevation_rad ∧ a.azimuth_rad = b.azimuth_rad := by
  simp [equivalent_opening]

/-- Opening equivalence is transitive (it is equality of the openings). -/
theorem equivalent_opening_trans {a b c : DelimitedDetector}
    (h1 : equivalent_opening a b = true) (h2 : equivalent_opening b c = true) :
    equivalent_opening a c = true := by
  rw [equivalent_opening_eq_true_iff] at h1 h2 ⊢
  exact ⟨h1.1.trans h2.1, h1.2.trans h2.2⟩

/-- The consecutive check on a two-or-more list splits off its head pair. -/
theorem consecutiveEquivalent_cons (a b : DelimitedDetector)
    (l : List DelimitedDetector) :
    consecutiveEquivalent (a :: b :: l) =
      (equivalent_opening a b && consecutiveEquivalent (b :: l)) := by
  simp [consecutiveEquivalent]

/-- The consecutive-pairs check of `_export_detectors` agrees with full
pairwise equivalence of the openings, because opening equivalence is an
equivalence relation. -/
theorem consecutiveEquivalent_iff_pairwise (l : List DelimitedDetector) :
    consecutiveEquivalent l = true ↔
      l.Pairwise (fun a b => equivalent_opening a b = true) := by
  induction l with
  | nil => simp [consecutiveEquivalent]
  | cons a t ih =>
    cases t with
    | nil => simp [consecutiveEquivalent]
    | cons b u =>
      rw [consecutiveEquivalent_cons, Bool.and_eq_true]
      constructor
      · rintro ⟨hab, hbu⟩
        have hp := ih.mp hbu
        refine List.pairwise_cons.mpr ⟨?_, hp⟩
        intro x hx
        rcases List.mem_cons.mp hx with rfl | hxu
        · exact hab
        · exact equivalent_opening_trans hab (List.rel_of_pairwise_cons hp hxu)
      · intro hp
        rw [List.pairwise_cons] at hp
        exact ⟨hp.1 b (List.mem_cons_self b u), ih.mpr hp.2⟩

/-- C1: for options with at least two delimited detectors,
`_export_detectors` fails with the configuration-conflict error exactly
when the detectors' angular openings are not all pairwise equivalent; when
every pair of delimited detectors has an equivalent opening, no conflict
error is raised. -/
theorem conflict_iff_openings_incompatible (options : Options) (w : WxrOptions)
    (h : 2 ≤ (delimitedDetectors options).length) :
    export_detectors options w = .error .configurationConflict ↔
      ¬ (delimitedDetectors options).Pairwise
          (fun a b => equivalent_opening a b = true) := by
  rcases hde : delimitedDetectors options with _ | ⟨d, rest⟩
  · rw [hde] at h
    simp at h
  · by_cases hp : (delimitedDetectors options).Pairwise
        (fun a b => equivalent_opening a b = true)
    · rw [hde] at hp
      have hc : consecutiveEquivalent (d :: rest) = true :=
        (consecutiveEquivalent_iff_pairwise _).mpr hp
      simp only [export_detectors, hde]
      rw [if_neg (by simp [hc])]
      exact iff_of_false (by simp) (not_not_intro hp)
    · rw [hde] at hp h
      have hc : consecutiveEquivalent (d :: rest) = false := by
        cases hcc : consecutiveEquivalent (d :: rest) with
        | false => rfl
        | true => exact absurd ((consecutiveEquivalent_iff_pairwise _).mp hcc) hp
      simp only [export_detectors, hde]
      rw [if_pos ⟨h, hc⟩]
      exact iff_of_true rfl hp

/-- Witness for C1 at a concrete two-detector configuration with
differing elevations. -/
theorem conflict_iff_openings_incompatible_witness :
    2 ≤ (delimitedDetectors fixOptsConflict).length ∧
      (export_detectors fixOptsConflict {} = .error .configurationConflict ↔
        ¬ (delimitedDetectors fixOptsConflict).Pairwise
            (fun a b => equivalent_opening a b = true)) :=
  ⟨by decide, conflict_iff_openings_incompatible fixOptsConflict {} (by decide)⟩

/-- C10: for options with exactly one delimited detector the conflict
branch is unreachable (`_export_detectors` succeeds), and the record's
position fields all come from that single detector: the takeoff angle in
degrees, the theta detector angle equal to 90 minus the takeoff angle, phi
equal to the mean of the detector's azimuth bounds in degrees, and the
solid angle. -/
theorem single_delimited_detector_position (options : Options) (w : WxrOptions)
    (d : DelimitedDetector) (hd : delimitedDetectors options = [d]) :
    ∃ w', export_detectors options w = .ok w' ∧
      w'.toa_deg = some (degrees d.takeoffangle_rad) ∧
      w'.angleThetaDetector_deg = some (90 - degrees d.takeoffangle_rad) ∧
      w'.anglePhiDetector_deg =
        some (degrees ((d.azimuth_rad.1 + d.azimuth_rad.2) / 2)) ∧
      w'.userDefineSolidAngle = true ∧
      w'.solidAngle_sr = some d.solidangle_sr := by
  simp only [export_detectors, hd]
  rw [if_neg (by simp)]
  exact ⟨_, rfl, rfl, rfl, rfl, rfl, rfl⟩

/-- Witness for C10 at a concrete single-detector configuration. -/
theorem single_delimited_detector_position_witness :
    delimitedDetectors fixOptsSingle = [fixDet1] ∧
      (∃ w', export_detectors fixOptsSingle {} = .ok w' ∧
        w'.toa_deg = some (degrees fixDet1.takeoffangle_rad) ∧
        w'.angleThetaDetector_deg = some (90 - degrees fixDet1.takeoffangle_rad) ∧
        w'.anglePhiDetector_deg =
          some (degrees ((fixDet1.azimuth_rad.1 + fixDet1.azimuth_rad.2) / 2)) ∧
        w'.userDefineSolidAngle = true ∧
        w'.solidAngle_sr = some fixDet1.solidangle_sr) :=
  ⟨by decide, single_delimited_detector_position fixOptsSingle {} fixDet1 (by decide)⟩

/-- When the delimited detectors' openings are pairwise equivalent, the
detector stage never raises. -/
theorem export_detectors_ok_of_pairwise (options : Options) (w : WxrOptions)
    (hp : (delimitedDetectors options).Pairwise
      (fun a b => equivalent_opening a b = true)) :
    ∃ w', export_detectors options w = .ok w' := by
  have hc : consecutiveEquivalent (delimitedDetectors options) = true :=
    (consecutiveEquivalent_iff_pairwise _).mpr hp
  simp only [export_detectors]
  rw [if_neg (by simp [hc])]
  cases delimitedDetectors options with
  | nil => exact ⟨_, rfl⟩
  | cons d rest => exact ⟨_, rfl⟩

/-- A mapped elastic-cross-section selection assigns the table's constant. -/
theorem model_elastic_cross_section_ok (s : String)
    (t0 : ElectronElasticCrossSectionType) (w : WxrOptions)
    (h : elasticCrossSectionTable.lookup s = some t0) :
    model_elastic_cross_section s w =
      .ok { w with typeElectronElasticCrossSection := some t0 } := by
  simp only [model_elastic_cross_section, h]

/-- A mapped ionization-cross-section selection assigns the table's constant. -/
theorem model_ionization_cross_section_ok (s : String)
    (t0 : IonizationCrossSectionType) (w : WxrOptions)
    (h : ionizationCrossSectionTable.lookup s = some t0) :
    model_ionization_cross_section s w =
      .ok { w with typeIonizationCrossSection := some t0 } := by
  simp only [model_ionization_cross_section, h]

/-- A mapped ionization-potential selection assigns the table's constant. -/
theorem model_ionization_potential_ok (s : String)
    (t0 : IonizationPotentialType) (w : WxrOptions)
    (h : ionizationPotentialTable.lookup s = some t0) :
    model_ionization_potential s w =
      .ok { w with typeIonisationPotential := some t0 } := by
  simp only [model_ionization_potential, h]

/-- A mapped random-number-generator selection assigns the table's constant. -/
theorem model_random_number_generator_ok (s : String)
    (t0 : RandomNumberGeneratorType) (w : WxrOptions)
    (h : randomNumberGeneratorTable.lookup s = some t0) :
    model_random_number_generator s w =
      .ok { w with typeRandomGenerator := some t0 } := by
  simp only [model_random_number_generator, h]

/-- A mapped direction-cosine selection assigns the table's constant. -/
theorem model_direction_cosine_ok (s : String)
    (t0 : DirectionCosineType) (w : WxrOptions)
    (h : directionCosineTable.lookup s = some t0) :
    model_direction_cosine s w =
      .ok { w with typeDirectionCosines := some t0 } := by
  simp only [model_direction_cosine, h]

/-- A mapped energy-loss selection assigns the table's constant. -/
theorem model_energy_loss_ok (s : String)
    (t0 : EnergyLossType) (w : WxrOptions)
    (h : energyLossTable.lookup s = some t0) :
    model_energy_loss s w = .ok { w with typeEnergyLoss := some t0 } := by
  simp only [model_energy_loss, h]

/-- A mapped mass-absorption-coefficient selection assigns the table's
constant. -/
theorem model_mass_absorption_coefficient_ok (s : String)
    (t0 : MassAbsorptionCoefficientType) (w : WxrOptions)
    (h : massAbsorptionCoefficientTable.lookup s = some t0) :
    model_mass_absorption_coefficient s w =
      .ok { w with typeMac := some t0 } := by
  simp only [model_mass_absorption_coefficient, h]

/-- When every selected model of a list has a mapping entry, the model
stage never raises. -/
theorem export_models_list_ok (l : List SelectedModel)
    (hm : l.all modelSupported = true) :
    ∀ w, ∃ w', export_models_list l w = .ok w' := by
  induction l with
  | nil => exact fun w => ⟨w, rfl⟩
  | cons m t ih =>
    intro w
    simp only [List.all_cons, Bool.and_eq_true] at hm
    obtain ⟨w1, hw1⟩ : ∃ w1, export_one_model m w = .ok w1 := by
      rcases m with s | s | s | s | s | s | s <;>
        simp only [modelSupported, Option.isSome_iff_exists] at hm <;>
        obtain ⟨t0, ht0⟩ := hm.1
      · exact ⟨_, model_elastic_cross_section_ok s t0 w ht0⟩
      · exact ⟨_, model_ionization_cross_section_ok s t0 w ht0⟩
      · exact ⟨_, model_ionization_potential_ok s t0 w ht0⟩
      · exact ⟨_, model_random_number_generator_ok s t0 w ht0⟩
      · exact ⟨_, model_direction_cosine_ok s t0 w ht0⟩
      · exact ⟨_, model_energy_loss_ok s t0 w ht0⟩
      · exact ⟨_, model_mass_absorption_coefficient_ok s t0 w ht0⟩
    obtain ⟨w2, hw2⟩ := ih hm.2 w1
    refine ⟨w2, ?_⟩
    simp only [export_models_list, hw1, hw2]

/-- When no conflict and no missing model mapping can occur, the whole
export pipeline succeeds. -/
theorem export_wxroptions_ok (options : Options) (dp : Option String)
    (hp : (delimitedDetectors options).Pairwise
      (fun a b => equivalent_opening a b = true))
    (hm : options.models.all modelSupported = true) :
    ∃ w ws, export_wxroptions options dp = .ok (w, ws) := by
  simp only [export_wxroptions, run_exporters]
  obtain ⟨w2, hw2⟩ := export_detectors_ok_of_pairwise options _ hp
  rw [hw2]
  obtain ⟨w4, hw4⟩ :=
    export_models_list_ok options.models hm (export_limits options w2)
  simp only [export_models]
  rw [hw4]
  exact ⟨_, _, rfl⟩

/-- C2: when all delimited detectors share an equivalent angular opening
(and every selected model is mapped, so no unrelated failure intervenes),
the export produces exactly one target configuration record, regardless of
how many delimited detectors there are. -/
theorem one_record_for_equivalent_openings (options : Options)
    (dp : Option String)
    (hp : (delimitedDetectors options).Pairwise
      (fun a b => equivalent_opening a b = true))
    (hm : options.models.all modelSupported = true) :
    recordCount (export_wxroptions options dp) = 1 := by
  obtain ⟨w, ws, h⟩ := export_wxroptions_ok options dp hp hm
  rw [h]
  rfl

/-- Witness for C2 at a concrete configuration with two delimited
detectors of equivalent openings. -/
theorem one_record_for_equivalent_openings_witness :
    (delimitedDetectors fixOptsSame).Pairwise
        (fun a b => equivalent_opening a b = true) ∧
      fixOptsSame.models.all modelSupported = true ∧
      recordCount (export_wxroptions fixOptsSame none) = 1 :=
  ⟨by decide, by decide,
    one_record_for_equivalent_openings fixOptsSame none (by decide) (by decide)⟩

/-- On a table with distinct keys, membership of a pair determines the
lookup result. -/
theorem lookup_eq_of_mem_of_nodupKeys {β : Type} (l : List (String × β))
    (hn : (l.map Prod.fst).Nodup) (s : String) (t : β) (h : (s, t) ∈ l) :
    l.lookup s = some t := by
  induction l with
  | nil => cases h
  | cons p l ih =>
    obtain ⟨k, v⟩ := p
    simp only [List.map_cons, List.nodup_cons] at hn
    rcases List.mem_cons.mp h with heq | hmem
    · cases heq
      simp [List.lookup]
    · have hne : (s == k) = false := by
        refine beq_eq_false_iff_ne.mpr ?_
        rintro rfl
        exact hn.1 (List.mem_map.mpr ⟨(s, t), hmem, rfl⟩)
      simp only [List.lookup, hne]
      exact ih hn.2 hmem

/-- C3: for every physical-model category, a selected value with an entry
in the category's fixed mapping table is assigned the corresponding
target-program constant, and a selected value with no entry fails with the
unsupported-model error (the key-error on the missing mapping). -/
theorem model_mapping_exact :
    (∀ s t w, (s, t) ∈ elasticCrossSectionTable →
      model_elastic_cross_section s w =
        .ok { w with typeElectronElasticCrossSection := some t }) ∧
    (∀ s w, elasticCrossSectionTable.lookup s = none →
      model_elastic_cross_section s w = .error .unsupportedModel) ∧
    (∀ s t w, (s, t) ∈ ionizationCrossSectionTable →
      model_ionization_cross_section s w =
        .ok { w with typeIonizationCrossSection := some t }) ∧
    (∀ s w, ionizationCrossSectionTable.lookup s = none →
      model_ionization_cross_section s w = .error .unsupportedModel) ∧
    (∀ s t w, (s, t) ∈ ionizationPotentialTable →
      model_ionization_potential s w =
        .ok { w with typeIonisationPotential := some t }) ∧
    (∀ s w, ionizationPotentialTable.lookup s = none →
      model_ionization_potential s w = .error .unsupportedModel) ∧
    (∀ s t w, (s, t) ∈ randomNumberGeneratorTable →
      model_random_number_generator s w =
        .ok { w with typeRandomGenerator := some t }) ∧
    (∀ s w, randomNumberGeneratorTable.lookup s = none →
      model_random_number_generator s w = .error .unsupportedModel) ∧
    (∀ s t w, (s, t) ∈ directionCosineTable →
      model_direction_cosine s w =
        .ok { w with typeDirectionCosines := some t }) ∧
    (∀ s w, directionCosineTable.lookup s = none →
      model_direction_cosine s w = .error .unsupportedModel) ∧
    (∀ s t w, (s, t) ∈ energyLossTable →
      model_energy_loss s w = .ok { w with typeEnergyLoss := some t }) ∧
    (∀ s w, energyLossTable.lookup s = none →
      model_energy_loss s w = .error .unsupportedModel) ∧
    (∀ s t w, (s, t) ∈ massAbsorptionCoefficientTable →
      model_mass_absorption_coefficient s w =
        .ok { w with typeMac := some t }) ∧
    (∀ s w, massAbsorptionCoefficientTable.lookup s = none →
      model_mass_absorption_coefficient s w = .error .unsupportedModel) := by
  refine ⟨?_, ?_, ?_, ?_, ?_, ?_, ?_, ?_, ?_, ?_, ?_, ?_, ?_, ?_⟩
  · exact fun s t w h => model_elastic_cross_section_ok s t w
      (lookup_eq_of_mem_of_nodupKeys _ (by decide) s t h)
  · intro s w h
    simp only [model_elastic_cross_section, h]
  · exact fun s t w h => model_ionization_cross_section_ok s t w
      (lookup_eq_of_mem_of_nodupKeys _ (by decide) s t h)
  · intro s w h
    simp only [model_ionization_cross_section, h]
  · exact fun s t w h => model_ionization_potential_ok s t w
      (lookup_eq_of_mem_of_nodupKeys _ (by decide) s t h)
  · intro s w h
    simp only [model_ionization_potential, h]
  · exact fun s t w h => model_random_number_generator_ok s t w
      (lookup_eq_of_mem_of_nodupKeys _ (by decide) s t h)
  · intro s w h
    simp only [model_random_number_generator, h]
  · exact fun s t w h => model_direction_cosine_ok s t w
      (lookup_eq_of_mem_of_nodupKeys _ (by decide) s t h)
  · intro s w h
    simp only [model_direction_cosine, h]
  · exact fun s t w h => model_energy_loss_ok s t w
      (lookup_eq_of_mem_of_nodupKeys _ (by decide) s t h)
  · intro s w h
    simp only [model_energy_loss, h]
  · exact fun s t w h => model_mass_absorption_coefficient_ok s t w
      (lookup_eq_of_mem_of_nodupKeys _ (by decide) s t h)
  · intro s w h
    simp only [model_mass_absorption_coefficient, h]

/-- Witness for C3: one mapped and one unmapped selection per category. -/
theorem model_mapping_exact_witness :
    model_elastic_cross_section "rutherford" {} =
      .ok { ({} : WxrOptions) with
            typeElectronElasticCrossSection := some .rutherford } ∧
    model_elastic_cross_section "mott_drouin1993" {} =
      .error .unsupportedModel ∧
    model_ionization_cross_section "casnati1982" {} =
      .ok { ({} : WxrOptions) with typeIonizationCrossSection := some .casnati } ∧
    model_ionization_cross_section "pouchou1986" {} =
      .error .unsupportedModel ∧
    model_ionization_potential "joy_luo1989" {} =
      .ok { ({} : WxrOptions) with typeIonisationPotential := some .joyLuo } ∧
    model_ionization_potential "berger_seltzer1964" {} =
      .error .unsupportedModel ∧
    model_random_number_generator "press1966_rand1" {} =
      .ok { ({} : WxrOptions) with typeRandomGenerator := some .ran1 } ∧
    model_random_number_generator "mersenne" {} = .error .unsupportedModel ∧
    model_direction_cosine "demers2000" {} =
      .ok { ({} : WxrOptions) with typeDirectionCosines := some .demers } ∧
    model_direction_cosine "soum1979" {} = .error .unsupportedModel ∧
    model_energy_loss "joy_luo1989" {} =
      .ok { ({} : WxrOptions) with typeEnergyLoss := some .joyLuo } ∧
    model_energy_loss "bethe1930" {} = .error .unsupportedModel ∧
    model_mass_absorption_coefficient "henke1993" {} =
      .ok { ({} : WxrOptions) with typeMac := some .henke } ∧
    model_mass_absorption_coefficient "pouchou_pichoir1991" {} =
      .error .unsupportedModel :=
  ⟨model_mapping_exact.1 "rutherford" .rutherford {} (by decide),
   model_mapping_exact.2.1 "mott_drouin1993" {} (by decide),
   model_mapping_exact.2.2.1 "casnati1982" .casnati {} (by decide),
   model_mapping_exact.2.2.2.1 "pouchou1986" {} (by decide),
   model_mapping_exact.2.2.2.2.1 "joy_luo1989" .joyLuo {} (by decide),
   model_mapping_exact.2.2.2.2.2.1 "berger_seltzer1964" {} (by decide),
   model_mapping_exact.2.2.2.2.2.2.1 "press1966_rand1" .ran1 {} (by decide),
   model_mapping_exact.2.2.2.2.2.2.2.1 "mersenne" {} (by decide),
   model_mapping_exact.2.2.2.2.2.2.2.2.1 "demers2000" .demers {} (by decide),
   model_mapping_exact.2.2.2.2.2.2.2.2.2.1 "soum1979" {} (by decide),
   model_mapping_exact.2.2.2.2.2.2.2.2.2.2.1 "joy_luo1989" .joyLuo {} (by decide),
   model_mapping_exact.2.2.2.2.2.2.2.2.2.2.2.1 "bethe1930" {} (by decide),
   model_mapping_exact.2.2.2.2.2.2.2.2.2.2.2.2.1 "henke1993" .henke {} (by decide),
   model_mapping_exact.2.2.2.2.2.2.2.2.2.2.2.2.2 "pouchou_pichoir1991" {} (by decide)⟩

/-- C4: for a photon spectrum detector with beam energy e (eV) and channel
count c, the exporter buckets e/c into four bands: below 10 the 5 eV
channel type with e // 5 channels, else below 20 the 10 eV type with
e // 10 channels, else below 40 the 20 eV type with e // 20 channels, and
otherwise the 40 eV type with e // 40 channels. -/
theorem photon_spectrum_bucketing (options : Options) (channels : ℕ)
    (w : WxrOptions) (hc : 0 < channels) :
    (options.beam.energy_eV / (channels : ℚ) < 10 →
      (detector_photon_spectrum options channels w).typeEVChannel =
          some .type5 ∧
        (detector_photon_spectrum options channels w).numberChannel =
          some (Rat.floor (options.beam.energy_eV / 5))) ∧
    (¬ options.beam.energy_eV / (channels : ℚ) < 10 →
      options.beam.energy_eV / (channels : ℚ) < 20 →
      (detector_photon_spectrum options channels w).typeEVChannel =
          some .type10 ∧
        (detector_photon_spectrum options channels w).numberChannel =
          some (Rat.floor (options.beam.energy_eV / 10))) ∧
    (¬ options.beam.energy_eV / (channels : ℚ) < 20 →
      options.beam.energy_eV / (channels : ℚ) < 40 →
      (detector_photon_spectrum options channels w).typeEVChannel =
          some .type20 ∧
        (detector_photon_spectrum options channels w).numberChannel =
          some (Rat.floor (options.beam.energy_eV / 20))) ∧
    (¬ options.beam.energy_eV / (channels : ℚ) < 40 →
      (detector_photon_spectrum options channels w).typeEVChannel =
          some .type40 ∧
        (detector_photon_spectrum options channels w).numberChannel =
          some (Rat.floor (options.beam.energy_eV / 40))) := by
  refine ⟨fun h10 => ?_, fun h10 h20 => ?_, fun h20 h40 => ?_, fun h40 => ?_⟩
  · simp only [detector_photon_spectrum]
    rw [if_pos h10]
    exact ⟨rfl, rfl⟩
  · simp only [detector_photon_spectrum]
    rw [if_neg h10, if_pos h20]
    exact ⟨rfl, rfl⟩
  · have h10 : ¬ options.beam.energy_eV / (channels : ℚ) < 10 := fun h =>
      h20 (h.trans (by norm_num))
    simp only [detector_photon_spectrum]
    rw [if_neg h10, if_neg h20, if_pos h40]
    exact ⟨rfl, rfl⟩
  · have h20 : ¬ options.beam.energy_eV / (channels : ℚ) < 20 := fun h =>
      h40 (h.trans (by norm_num))
    have h10 : ¬ options.beam.energy_eV / (channels : ℚ) < 10 := fun h =>
      h20 (h.trans (by norm_num))
    simp only [detector_photon_spectrum]
    rw [if_neg h10, if_neg h20, if_neg h40]
    exact ⟨rfl, rfl⟩

/-- Witness for C4 at 1234 eV and 1000 channels (1.234 eV per channel). -/
theorem photon_spectrum_bucketing_witness :
    0 < 1000 ∧
      fixOptsSame.beam.energy_eV / (1000 : ℚ) < 10 ∧
      (detector_photon_spectrum fixOptsSame 1000 {}).typeEVChannel =
        some .type5 ∧
      (detector_photon_spectrum fixOptsSame 1000 {}).numberChannel =
        some 246 :=
  ⟨by decide, by decide,
    by
      have h :=
        (photon_spectrum_bucketing fixOptsSame 1000 {} (by decide)).1 (by decide)
      refine ⟨h.1, ?_⟩
      rw [h.2]
      decide⟩

/-- C5: the exporter's unit conversions are fixed and exact: the beam
energy written equals energy_eV / 1000 (keV), the beam diameter written
equals diameter_m * 1e9 (nm), and the detector angles written are the
radian values converted to degrees (the takeoff angle and the mean of the
azimuth bounds). -/
theorem unit_conversions_exact (beam : GaussianBeam) (wb w : WxrOptions)
    (wsb : List String) (options : Options) (w' : WxrOptions)
    (d : DelimitedDetector) (rest : List DelimitedDetector)
    (hd : delimitedDetectors options = d :: rest)
    (hok : export_detectors options w = .ok w') :
    (beam_gaussian beam wb wsb).1.incidentEnergy_keV =
        some (beam.energy_eV / 1000) ∧
      (beam_gaussian beam wb wsb).1.beamDiameter_nm =
        some (beam.diameter_m * 1e9) ∧
      w'.toa_deg = some (degrees d.takeoffangle_rad) ∧
      w'.anglePhiDetector_deg =
        some (degrees ((d.azimuth_rad.1 + d.azimuth_rad.2) / 2)) := by
  refine ⟨?_, ?_, ?_, ?_⟩
  · simp only [beam_gaussian]
    split <;> rfl
  · simp only [beam_gaussian]
    split <;> rfl
  · simp only [export_detectors, hd] at hok
    split at hok
    · cases hok
    · cases hok
      rfl
  · simp only [export_detectors, hd] at hok
    split at hok
    · cases hok
    · cases hok
      rfl

/-- Witness for C5: 1234 eV yields exactly 1.234 keV, 1e-8 m yields
exactly 10 nm, and the single fixture detector's angles are written in
degrees. -/
theorem unit_conversions_exact_witness :
    delimitedDetectors fixOptsSingle = [fixDet1] ∧
      export_detectors fixOptsSingle {} = .ok fixSingleRecord ∧
      (beam_gaussian fixBeam {} []).1.incidentEnergy_keV = some 1.234 ∧
      (beam_gaussian fixBeam {} []).1.beamDiameter_nm = some 10 ∧
      ((beam_gaussian fixBeam {} []).1.incidentEnergy_keV =
          some (fixBeam.energy_eV / 1000) ∧
        (beam_gaussian fixBeam {} []).1.beamDiameter_nm =
          some (fixBeam.diameter_m * 1e9) ∧
        fixSingleRecord.toa_deg = some (degrees fixDet1.takeoffangle_rad) ∧
        fixSingleRecord.anglePhiDetector_deg =
          some (degrees ((fixDet1.azimuth_rad.1 + fixDet1.azimuth_rad.2) / 2))) :=
  ⟨by decide, by decide, by decide, by decide,
    unit_conversions_exact fixBeam {} {} [] fixOptsSingle fixSingleRecord
      fixDet1 [] (by decide) (by decide)⟩

/-- The per-model exporters never touch the shower count field. -/
theorem export_one_model_preserves_nbElectron (m : SelectedModel)
    (w w1 : WxrOptions) (h : export_one_model m w = .ok w1) :
    w1.nbElectron = w.nbElectron := by
  rcases m with s | s | s | s | s | s | s <;>
    simp only [export_one_model, model_elastic_cross_section,
      model_ionization_cross_section, model_ionization_potential,
      model_random_number_generator, model_direction_cosine,
      model_energy_loss, model_mass_absorption_coefficient] at h <;>
    split at h <;> cases h <;> rfl

/-- The model stage never touches the shower count field. -/
theorem export_models_list_preserves_nbElectron (l : List SelectedModel) :
    ∀ w w1, export_models_list l w = .ok w1 → w1.nbElectron = w.nbElectron := by
  induction l with
  | nil =>
    intro w w1 h
    cases h
    rfl
  | cons m t ih =>
    intro w w1 h
    simp only [export_models_list] at h
    split at h
    · rename_i wm hm
      exact (ih _ _ h).trans (export_one_model_preserves_nbElectron m w wm hm)
    · cases h

/-- C7: the shower count of a showers limit is copied verbatim into the
produced record. -/
theorem showers_copied_verbatim (options : Options) (dp : Option String)
    (n : ℕ) (w : WxrOptions) (ws : List String)
    (hl : options.limits = [Limit.showers n])
    (hok : export_wxroptions options dp = .ok (w, ws)) :
    w.nbElectron = some n := by
  simp only [export_wxroptions, run_exporters] at hok
  split at hok
  · cases hok
  · rename_i w2 hw2
    simp only [export_models] at hok
    split at hok
    · cases hok
    · rename_i w4 hw4
      cases hok
      have hp := export_models_list_preserves_nbElectron options.models _ _ hw4
      rw [hp]
      simp [export_limits, hl, limit_showers]

/-- Witness for C7: the 5678-shower limit lands verbatim in the record. -/
theorem showers_copied_verbatim_witness :
    fixOptsSame.limits = [Limit.showers 5678] ∧
      export_wxroptions fixOptsSame none = .ok fixSameResult ∧
      fixSameResult.1.nbElectron = some 5678 :=
  ⟨by decide, by decide,
    showers_copied_verbatim fixOptsSame none 5678 fixSameResult.1
      fixSameResult.2 (by decide) (by decide)⟩

/-- C8: a successful export call writes the configuration to exactly one
path, `os.path.join(dirpath, options.name + ".wxc")`, and returns that
path. -/
theorem export_writes_single_path (options : Options) (dirpath : String)
    (r : ExportResult) (h : export_file options dirpath = .ok r) :
    r.written = [pathJoin dirpath (options.name ++ ".wxc")] ∧
      r.returned = pathJoin dirpath (options.name ++ ".wxc") := by
  simp only [export_file] at h
  split at h
  · cases h
  · cases h
    exact ⟨rfl, rfl⟩

/-- Witness for C8: exporting the fixture writes "outdir/Test.wxc" only,
and returns it. -/
theorem export_writes_single_path_witness :
    export_file fixOptsSame "outdir" = .ok fixExportResult ∧
      fixExportResult.written = ["outdir/Test.wxc"] ∧
      fixExportResult.returned = "outdir/Test.wxc" ∧
      (fixExportResult.written =
          [pathJoin "outdir" (fixOptsSame.name ++ ".wxc")] ∧
        fixExportResult.returned =
          pathJoin "outdir" (fixOptsSame.name ++ ".wxc")) :=
  ⟨by decide, by decide, by decide,
    export_writes_single_path fixOptsSame "outdir" fixExportResult (by decide)⟩

/-- The beam stage appends exactly the non-zero-origin warning. -/
theorem beam_gaussian_warnings (beam : GaussianBeam) (w : WxrOptions)
    (ws : List String) :
    (beam_gaussian beam w ws).2 =
      ws ++ (if beam.origin_m ≠ (0, 0, 0) then [beamPositionWarning] else []) := by
  simp only [beam_gaussian]
  split
  · rfl
  · rw [List.append_nil]

/-- The geometry stage appends the density warning unconditionally, then
the tilt and rotation warnings when those are non-zero. -/
theorem geometry_substrate_warnings (options : Options) (geometry : Substrate)
    (w : WxrOptions) (ws : List String) :
    (geometry_substrate options geometry w ws).2 =
      ((ws ++ [densityWarning]) ++
          (if options.geometry.tilt_rad ≠ 0 then [tiltWarning] else [])) ++
        (if options.geometry.rotation_rad ≠ 0 then [rotationWarning] else []) := by
  by_cases h1 : options.geometry.tilt_rad ≠ 0 <;>
    by_cases h2 : options.geometry.rotation_rad ≠ 0 <;>
      simp [geometry_substrate, h1, h2]

/-- The record half of the beam stage depends only on the beam's energy
and diameter, not on its origin or the warning list. -/
theorem beam_gaussian_fst (beam beam2 : GaussianBeam) (w : WxrOptions)
    (ws ws2 : List String) (he : beam.energy_eV = beam2.energy_eV)
    (hd : beam.diameter_m = beam2.diameter_m) :
    (beam_gaussian beam w ws).1 = (beam_gaussian beam2 w ws2).1 := by
  simp only [beam_gaussian]
  split <;> split <;> simp [he, hd]

/-- The record half of the geometry stage depends only on the materials,
not on tilt, rotation or the warning list. -/
theorem geometry_substrate_fst (o1 o2 : Options) (g1 g2 : Substrate)
    (w : WxrOptions) (ws1 ws2 : List String) (hg : g1.material = g2.material)
    (hm : o1.geometry.material = o2.geometry.material) :
    (geometry_substrate o1 g1 w ws1).1 = (geometry_substrate o2 g2 w ws2).1 := by
  simp only [geometry_substrate]
  simp [minAbsorptionEnergy, Substrate.get_materials, hg, hm]

/-- The per-detector exporters read only the beam energy from the options. -/
theorem export_one_detector_congr (o1 o2 : Options)
    (he : o1.beam.energy_eV = o2.beam.energy_eV) (det : Detector)
    (v : WxrOptions) :
    export_one_detector o1 det v = export_one_detector o2 det v := by
  cases det <;> simp [export_one_detector, detector_photon_spectrum, he]

/-- The detector stage reads only the detector collection and the beam
energy from the options. -/
theorem export_detectors_congr (o1 o2 : Options) (w : WxrOptions)
    (hd : o1.detectors = o2.detectors)
    (he : o1.beam.energy_eV = o2.beam.energy_eV) :
    export_detectors o1 w = export_detectors o2 w := by
  have hone := export_one_detector_congr o1 o2 he
  have hfold : ∀ (l : List (String × Detector)) v,
      l.foldl (fun v nd => export_one_detector o1 nd.2 v) v =
        l.foldl (fun v nd => export_one_detector o2 nd.2 v) v := by
    intro l
    induction l with
    | nil => intro v; rfl
    | cons nd t ih =>
      intro v
      simp only [List.foldl_cons, hone, ih]
  have hdel : delimitedDetectors o1 = delimitedDetectors o2 := by
    simp [delimitedDetectors, hd]
  simp only [export_detectors, hd, hdel, hfold]

/-- The record half of the whole pipeline depends on the options only
through the detectors, beam energy and diameter, materials, limits and
models — not through the beam origin, tilt or rotation (which feed only
the warnings). -/
theorem run_exporters_fst_congr (o1 o2 : Options) (w0 : WxrOptions)
    (hd : o1.detectors = o2.detectors)
    (he : o1.beam.energy_eV = o2.beam.energy_eV)
    (hdm : o1.beam.diameter_m = o2.beam.diameter_m)
    (hmat : o1.geometry.material = o2.geometry.material)
    (hl : o1.limits = o2.limits)
    (hm : o1.models = o2.models) :
    (run_exporters o1 w0).map Prod.fst =
      (run_exporters o2 w0).map Prod.fst := by
  have hb : (beam_gaussian o1.beam w0 []).1 = (beam_gaussian o2.beam w0 []).1 :=
    beam_gaussian_fst _ _ _ _ _ he hdm
  have hg : (geometry_substrate o1 o1.geometry (beam_gaussian o1.beam w0 []).1
        (beam_gaussian o1.beam w0 []).2).1 =
      (geometry_substrate o2 o2.geometry (beam_gaussian o2.beam w0 []).1
        (beam_gaussian o2.beam w0 []).2).1 := by
    rw [hb]
    exact geometry_substrate_fst o1 o2 o1.geometry o2.geometry _ _ _ hmat hmat
  have hdet : export_detectors o1
        (geometry_substrate o1 o1.geometry (beam_gaussian o1.beam w0 []).1
          (beam_gaussian o1.beam w0 []).2).1 =
      export_detectors o2
        (geometry_substrate o2 o2.geometry (beam_gaussian o2.beam w0 []).1
          (beam_gaussian o2.beam w0 []).2).1 := by
    rw [hg]
    exact export_detectors_congr o1 o2 _ hd he
  simp only [run_exporters]
  rw [hdet]
  cases hE : export_detectors o2
      (geometry_substrate o2 o2.geometry (beam_gaussian o2.beam w0 []).1
        (beam_gaussian o2.beam w0 []).2).1 with
  | error e => rfl
  | ok w2 =>
    have hlim : export_limits o1 w2 = export_limits o2 w2 := by
      simp only [export_limits, hl]
    have hmod : export_models o1 (export_limits o2 w2) =
        export_models o2 (export_limits o2 w2) := by
      simp only [export_models, hm]
    dsimp only
    rw [hlim, hmod]
    cases export_models o2 (export_limits o2 w2) with
    | error e => rfl
    | ok w4 => rfl

/-- The produced record (warnings aside) does not change when the
unsupported beam origin, tilt and rotation are reset to their defaults:
the export falls back to those values. -/
theorem export_record_ignores_positioning (options : Options)
    (dp : Option String) :
    (export_wxroptions (zeroPositioning options) dp).map Prod.fst =
      (export_wxroptions options dp).map Prod.fst := by
  simp only [export_wxroptions]
  exact run_exporters_fst_congr (zeroPositioning options) options _
    rfl rfl rfl rfl rfl rfl

/-- C6: unsupported features warn rather than fail: in a produced export,
a non-zero beam origin puts the no-beam-position warning in the list, a
non-zero tilt the tilt warning, a non-zero rotation the rotation warning,
the density warning (user-defined density unsupported) is present, and the
produced record coincides with the one produced after resetting origin,
tilt and rotation to their supported defaults — the export proceeds on
fallback values. -/
theorem unsupported_features_warn (options : Options) (dp : Option String)
    (w : WxrOptions) (ws : List String)
    (hok : export_wxroptions options dp = .ok (w, ws)) :
    (options.beam.origin_m ≠ (0, 0, 0) → beamPositionWarning ∈ ws) ∧
      (options.geometry.tilt_rad ≠ 0 → tiltWarning ∈ ws) ∧
      (options.geometry.rotation_rad ≠ 0 → rotationWarning ∈ ws) ∧
      densityWarning ∈ ws ∧
      (export_wxroptions (zeroPositioning options) dp).map Prod.fst =
        (export_wxroptions options dp).map Prod.fst := by
  have hws : ws =
      ((([] ++ (if options.beam.origin_m ≠ (0, 0, 0) then [beamPositionWarning]
          else [])) ++ [densityWarning]) ++
        (if options.geometry.tilt_rad ≠ 0 then [tiltWarning] else [])) ++
        (if options.geometry.rotation_rad ≠ 0 then [rotationWarning] else []) := by
    simp only [export_wxroptions, run_exporters] at hok
    split at hok
    · cases hok
    · split at hok
      · cases hok
      · rw [Except.ok.injEq, Prod.mk.injEq] at hok
        obtain ⟨h1, h2⟩ := hok
        rw [← h2, geometry_substrate_warnings, beam_gaussian_warnings]
  refine ⟨?_, ?_, ?_, ?_, export_record_ignores_positioning options dp⟩
  · intro h
    have h' : ¬ options.beam.origin_m = 0 := h
    rw [hws]
    simp [h']
  · intro h
    rw [hws]
    simp [h]
  · intro h
    rw [hws]
    simp [h]
  · rw [hws]
    simp

/-- Witness for C6: a configuration with non-zero origin, tilt and
rotation exports successfully, with all four warnings present. -/
theorem unsupported_features_warn_witness :
    export_wxroptions fixOptsWarn none =
        .ok (fixWarnResult.1, fixWarnResult.2) ∧
      fixOptsWarn.beam.origin_m ≠ (0, 0, 0) ∧
      fixOptsWarn.geometry.tilt_rad ≠ 0 ∧
      fixOptsWarn.geometry.rotation_rad ≠ 0 ∧
      ((fixOptsWarn.beam.origin_m ≠ (0, 0, 0) →
          beamPositionWarning ∈ fixWarnResult.2) ∧
        (fixOptsWarn.geometry.tilt_rad ≠ 0 → tiltWarning ∈ fixWarnResult.2) ∧
        (fixOptsWarn.geometry.rotation_rad ≠ 0 →
          rotationWarning ∈ fixWarnResult.2) ∧
        densityWarning ∈ fixWarnResult.2 ∧
        (export_wxroptions (zeroPositioning fixOptsWarn) none).map Prod.fst =
          (export_wxroptions fixOptsWarn none).map Prod.fst) :=
  ⟨by decide, by decide, by decide, by decide,
    unsupported_features_warn fixOptsWarn none fixWarnResult.1 fixWarnResult.2
      (by decide)⟩

/-- The spectrum exporter in closed form: the three X-ray flags plus the
bucketed channel type and count. -/
theorem detector_photon_spectrum_eq (options : Options) (channels : ℕ)
    (v : WxrOptions) :
    detector_photon_spectrum options channels v =
      { v with xrayCompute := true, xrayComputeBackground := true,
               xrayComputeCharacteristic := true,
               typeEVChannel := some
                 (evChannelType options.beam.energy_eV (channels : ℚ)),
               numberChannel := some (Rat.floor (options.beam.energy_eV /
                 evChannelWidth options.beam.energy_eV (channels : ℚ))) } := by
  simp only [detector_photon_spectrum, evChannelType, evChannelWidth]
  split_ifs <;> rfl

/-- No per-detector exporter touches the fifteen distribution flags that
have no registered detector kind. -/
theorem export_one_detector_pres_never (options : Options) (det : Detector)
    (v : WxrOptions) :
    (export_one_detector options det v).computeBSEDepth = v.computeBSEDepth ∧
    (export_one_detector options det v).computeBSERadial = v.computeBSERadial ∧
    (export_one_detector options det v).computeBSESpatial = v.computeBSESpatial ∧
    (export_one_detector options det v).computeBSELateral = v.computeBSELateral ∧
    (export_one_detector options det v).computeSEDistribution =
      v.computeSEDistribution ∧
    (export_one_detector options det v).computeEnergyLossDistribution =
      v.computeEnergyLossDistribution ∧
    (export_one_detector options det v).computeEnergyLossDepth =
      v.computeEnergyLossDepth ∧
    (export_one_detector options det v).computeEnergyLossLateral =
      v.computeEnergyLossLateral ∧
    (export_one_detector options det v).computeEnergyLossSpatial =
      v.computeEnergyLossSpatial ∧
    (export_one_detector options det v).computeEnergyLossRadial =
      v.computeEnergyLossRadial ∧
    (export_one_detector options det v).computeElectronDistribution =
      v.computeElectronDistribution ∧
    (export_one_detector options det v).computeElectronDepth =
      v.computeElectronDepth ∧
    (export_one_detector options det v).computeElectronRadial =
      v.computeElectronRadial ∧
    (export_one_detector options det v).computeElectronSpatial =
      v.computeElectronSpatial ∧
    (export_one_detector options det v).computeElectronLateral =
      v.computeElectronLateral := by
  cases det <;>
    simp [export_one_detector, detector_backscattered_electron_energy,
      detector_backscattered_electron_polar_angular, detector_photondetector,
      detector_photon_intensity, detector_photon_spectrum_eq,
      detector_electron_fraction]

/-- A detector whose kind does not set the X-ray compute flag leaves it
unchanged. -/
theorem export_one_detector_pres_xrayCompute (options : Options)
    (det : Detector) (v : WxrOptions) (h : setsXrayCompute det = false) :
    (export_one_detector options det v).xrayCompute = v.xrayCompute := by
  cases det <;> simp_all [setsXrayCompute, export_one_detector,
    detector_backscattered_electron_energy,
    detector_backscattered_electron_polar_angular, detector_electron_fraction]

/-- A detector whose kind does not set the X-ray background flag leaves it
unchanged. -/
theorem export_one_detector_pres_xrayBackground (options : Options)
    (det : Detector) (v : WxrOptions)
    (h : setsXrayComputeBackground det = false) :
    (export_one_detector options det v).xrayComputeBackground =
      v.xrayComputeBackground := by
  cases det <;> simp_all [setsXrayComputeBackground, export_one_detector,
    detector_backscattered_electron_energy,
    detector_backscattered_electron_polar_angular, detector_photondetector,
    detector_photon_intensity, detector_electron_fraction]

/-- A detector whose kind does not set the X-ray characteristic flag
leaves it unchanged. -/
theorem export_one_detector_pres_xrayCharacteristic (options : Options)
    (det : Detector) (v : WxrOptions)
    (h : setsXrayComputeCharacteristic det = false) :
    (export_one_detector options det v).xrayComputeCharacteristic =
      v.xrayComputeCharacteristic := by
  cases det <;> simp_all [setsXrayComputeCharacteristic, export_one_detector,
    detector_backscattered_electron_energy,
    detector_backscattered_electron_polar_angular, detector_electron_fraction]

/-- A detector whose kind does not set the BSE distribution flag leaves it
unchanged. -/
theorem export_one_detector_pres_bseDistribution (options : Options)
    (det : Detector) (v : WxrOptions)
    (h : setsComputeBSEDistribution det = false) :
    (export_one_detector options det v).computeBSEDistribution =
      v.computeBSEDistribution := by
  cases det <;> simp_all [setsComputeBSEDistribution, export_one_detector,
    detector_photondetector, detector_photon_intensity,
    detector_photon_spectrum_eq]

/-- A detector whose kind does not set the BSE energy flag leaves it
unchanged. -/
theorem export_one_detector_pres_bseEnergy (options : Options)
    (det : Detector) (v : WxrOptions) (h : setsComputeBSEEnergy det = false) :
    (export_one_detector options det v).computeBSEEnergy =
      v.computeBSEEnergy := by
  cases det <;> simp_all [setsComputeBSEEnergy, export_one_detector,
    detector_backscattered_electron_polar_angular, detector_photondetector,
    detector_photon_intensity, detector_photon_spectrum_eq]

/-- A detector whose kind does not set the BSE angular flag leaves it
unchanged. -/
theorem export_one_detector_pres_bseAngular (options : Options)
    (det : Detector) (v : WxrOptions) (h : setsComputeBSEAngular det = false) :
    (export_one_detector options det v).computeBSEAngular =
      v.computeBSEAngular := by
  cases det <;> simp_all [setsComputeBSEAngular, export_one_detector,
    detector_backscattered_electron_energy, detector_photondetector,
    detector_photon_intensity, detector_photon_spectrum_eq,
    detector_electron_fraction]

/-- A compute flag that starts false stays false along the detector
dispatch when none of the dispatched detectors sets it. -/
theorem foldl_flag_false (options : Options) (f : WxrOptions → Bool)
    (sets : Detector → Bool)
    (hpres : ∀ det v, sets det = false →
      f (export_one_detector options det v) = f v)
    (l : List (String × Detector))
    (hl : l.all (fun nd => !sets nd.2) = true) :
    ∀ v, f v = false →
      f (l.foldl (fun v nd => export_one_detector options nd.2 v) v) = false := by
  induction l with
  | nil => exact fun v hv => hv
  | cons nd t ih =>
    simp only [List.all_cons, Bool.and_eq_true, Bool.not_eq_true'] at hl
    intro v hv
    simp only [List.foldl_cons]
    refine ih (by simpa using hl.2) _ ?_
    rw [hpres nd.2 v hl.1]
    exact hv

/-- The dispatch fold keeps every flag false whose setters are absent, and
the fifteen never-set flags always false. -/
theorem detectorsFold_flags (options : Options) (w : WxrOptions) :
    (options.detectors.all (fun nd => !setsXrayCompute nd.2) = true →
      (detectorsFold options w).xrayCompute = false) ∧
    (options.detectors.all (fun nd => !setsXrayComputeBackground nd.2) = true →
      (detectorsFold options w).xrayComputeBackground = false) ∧
    (options.detectors.all
        (fun nd => !setsXrayComputeCharacteristic nd.2) = true →
      (detectorsFold options w).xrayComputeCharacteristic = false) ∧
    (options.detectors.all (fun nd => !setsComputeBSEDistribution nd.2) = true →
      (detectorsFold options w).computeBSEDistribution = false) ∧
    (options.detectors.all (fun nd => !setsComputeBSEEnergy nd.2) = true →
      (detectorsFold options w).computeBSEEnergy = false) ∧
    (options.detectors.all (fun nd => !setsComputeBSEAngular nd.2) = true →
      (detectorsFold options w).computeBSEAngular = false) ∧
    (detectorsFold options w).computeBSEDepth = false ∧
    (detectorsFold options w).computeBSERadial = false ∧
    (detectorsFold options w).computeBSESpatial = false ∧
    (detectorsFold options w).computeBSELateral = false ∧
    (detectorsFold options w).computeSEDistribution = false ∧
    (detectorsFold options w).computeEnergyLossDistribution = false ∧
    (detectorsFold options w).computeEnergyLossDepth = false ∧
    (detectorsFold options w).computeEnergyLossLateral = false ∧
    (detectorsFold options w).computeEnergyLossSpatial = false ∧
    (detectorsFold options w).computeEnergyLossRadial = false ∧
    (detectorsFold options w).computeElectronDistribution = false ∧
    (detectorsFold options w).computeElectronDepth = false ∧
    (detectorsFold options w).computeElectronRadial = false ∧
    (detectorsFold options w).computeElectronSpatial = false ∧
    (detectorsFold options w).computeElectronLateral = false := by
  refine ⟨fun hl => ?_, fun hl => ?_, fun hl => ?_, fun hl => ?_, fun hl => ?_,
    fun hl => ?_, ?_, ?_, ?_, ?_, ?_, ?_, ?_, ?_, ?_, ?_, ?_, ?_, ?_, ?_, ?_⟩
  · exact foldl_flag_false options (fun v => v.xrayCompute) setsXrayCompute
      (export_one_detector_pres_xrayCompute options) options.detectors hl _ rfl
  · exact foldl_flag_false options (fun v => v.xrayComputeBackground)
      setsXrayComputeBackground
      (export_one_detector_pres_xrayBackground options) options.detectors hl _ rfl
  · exact foldl_flag_false options (fun v => v.xrayComputeCharacteristic)
      setsXrayComputeCharacteristic
      (export_one_detector_pres_xrayCharacteristic options)
      options.detectors hl _ rfl
  · exact foldl_flag_false options (fun v => v.computeBSEDistribution)
      setsComputeBSEDistribution
      (export_one_detector_pres_bseDistribution options)
      options.detectors hl _ rfl
  · exact foldl_flag_false options (fun v => v.computeBSEEnergy)
      setsComputeBSEEnergy
      (export_one_detector_pres_bseEnergy options) options.detectors hl _ rfl
  · exact foldl_flag_false options (fun v => v.computeBSEAngular)
      setsComputeBSEAngular
      (export_one_detector_pres_bseAngular options) options.detectors hl _ rfl
  · exact foldl_flag_false options (fun v => v.computeBSEDepth) (fun _ => false)
      (fun det v _ => (export_one_detector_pres_never options det v).1)
      options.detectors (by simp) _ rfl
  · exact foldl_flag_false options (fun v => v.computeBSERadial) (fun _ => false)
      (fun det v _ => (export_one_detector_pres_never options det v).2.1)
      options.detectors (by simp) _ rfl
  · exact foldl_flag_false options (fun v => v.computeBSESpatial) (fun _ => false)
      (fun det v _ => (export_one_detector_pres_never options det v).2.2.1)
      options.detectors (by simp) _ rfl
  · exact foldl_flag_false options (fun v => v.computeBSELateral) (fun _ => false)
      (fun det v _ => (export_one_detector_pres_never options det v).2.2.2.1)
      options.detectors (by simp) _ rfl
  · exact foldl_flag_false options (fun v => v.computeSEDistribution)
      (fun _ => false)
      (fun det v _ => (export_one_detector_pres_never options det v).2.2.2.2.1)
      options.detectors (by simp) _ rfl
  · exact foldl_flag_false options (fun v => v.computeEnergyLossDistribution)
      (fun _ => false)
      (fun det v _ =>
        (export_one_detector_pres_never options det v).2.2.2.2.2.1)
      options.detectors (by simp) _ rfl
  · exact foldl_flag_false options (fun v => v.computeEnergyLossDepth)
      (fun _ => false)
      (fun det v _ =>
        (export_one_detector_pres_never options det v).2.2.2.2.2.2.1)
      options.detectors (by simp) _ rfl
  · exact foldl_flag_false options (fun v => v.computeEnergyLossLateral)
      (fun _ => false)
      (fun det v _ =>
        (export_one_detector_pres_never options det v).2.2.2.2.2.2.2.1)
      options.detectors (by simp) _ rfl
  · exact foldl_flag_false options (fun v => v.computeEnergyLossSpatial)
      (fun _ => false)
      (fun det v _ =>
        (export_one_detector_pres_never options det v).2.2.2.2.2.2.2.2.1)
      options.detectors (by simp) _ rfl
  · exact foldl_flag_false options (fun v => v.computeEnergyLossRadial)
      (fun _ => false)
      (fun det v _ =>
        (export_one_detector_pres_never options det v).2.2.2.2.2.2.2.2.2.1)
      options.detectors (by simp) _ rfl
  · exact foldl_flag_false options (fun v => v.computeElectronDistribution)
      (fun _ => false)
      (fun det v _ =>
        (export_one_detector_pres_never options det v).2.2.2.2.2.2.2.2.2.2.1)
      options.detectors (by simp) _ rfl
  · exact foldl_flag_false options (fun v => v.computeElectronDepth)
      (fun _ => false)
      (fun det v _ =>
        (export_one_detector_pres_never options det v).2.2.2.2.2.2.2.2.2.2.2.1)
      options.detectors (by simp) _ rfl
  · exact foldl_flag_false options (fun v => v.computeElectronRadial)
      (fun _ => false)
      (fun det v _ =>
        (export_one_detector_pres_never options det
          v).2.2.2.2.2.2.2.2.2.2.2.2.1)
      options.detectors (by simp) _ rfl
  · exact foldl_flag_false options (fun v => v.computeElectronSpatial)
      (fun _ => false)
      (fun det v _ =>
        (export_one_detector_pres_never options det
          v).2.2.2.2.2.2.2.2.2.2.2.2.2.1)
      options.detectors (by simp) _ rfl
  · exact foldl_flag_false options (fun v => v.computeElectronLateral)
      (fun _ => false)
      (fun det v _ =>
        (export_one_detector_pres_never options det
          v).2.2.2.2.2.2.2.2.2.2.2.2.2.2)
      options.detectors (by simp) _ rfl

/-- C9 (amended): `_export_detectors` first sets every compute flag to
false, so in the produced record every compute flag that no present
detector's exporter sets remains false — whatever the incoming record was;
the fifteen flags no registered detector kind sets are always false. -/
theorem compute_flags_false_when_unset (options : Options) (w w' : WxrOptions)
    (hok : export_detectors options w = .ok w') :
    (options.detectors.all (fun nd => !setsXrayCompute nd.2) = true →
      w'.xrayCompute = false) ∧
    (options.detectors.all (fun nd => !setsXrayComputeBackground nd.2) = true →
      w'.xrayComputeBackground = false) ∧
    (options.detectors.all
        (fun nd => !setsXrayComputeCharacteristic nd.2) = true →
      w'.xrayComputeCharacteristic = false) ∧
    (options.detectors.all (fun nd => !setsComputeBSEDistribution nd.2) = true →
      w'.computeBSEDistribution = false) ∧
    (options.detectors.all (fun nd => !setsComputeBSEEnergy nd.2) = true →
      w'.computeBSEEnergy = false) ∧
    (options.detectors.all (fun nd => !setsComputeBSEAngular nd.2) = true →
      w'.computeBSEAngular = false) ∧
    w'.computeBSEDepth = false ∧
    w'.computeBSERadial = false ∧
    w'.computeBSESpatial = false ∧
    w'.computeBSELateral = false ∧
    w'.computeSEDistribution = false ∧
    w'.computeEnergyLossDistribution = false ∧
    w'.computeEnergyLossDepth = false ∧
    w'.computeEnergyLossLateral = false ∧
    w'.computeEnergyLossSpatial = false ∧
    w'.computeEnergyLossRadial = false ∧
    w'.computeElectronDistribution = false ∧
    w'.computeElectronDepth = false ∧
    w'.computeElectronRadial = false ∧
    w'.computeElectronSpatial = false ∧
    w'.computeElectronLateral = false := by
  have hfold := detectorsFold_flags options w
  simp only [export_detectors] at hok
  split at hok
  · cases hok
  · split at hok
    · cases hok
      exact hfold
    · cases hok
      exact hfold

/-- C9 counterexample: an options whose only detector is an
electron-fraction detector has no backscattered-electron detector of any
kind, yet the produced record's BSE energy and BSE distribution compute
flags — flags of the absent backscattered-electron detector kinds — are
true, because the electron-fraction exporter sets them as well. -/
theorem compute_flags_counterexample :
    fixOptsFraction.detectors = [("fraction", Detector.electronFraction)] ∧
      (export_detectors fixOptsFraction {}).map
          (fun v => v.computeBSEEnergy) = .ok true ∧
      (export_detectors fixOptsFraction {}).map
          (fun v => v.computeBSEDistribution) = .ok true := by
  refine ⟨rfl, ?_, ?_⟩ <;> decide

/-- Witness for the amended C9 at an options whose only detector is a
time detector, which sets no flag. -/
theorem compute_flags_false_when_unset_witness :
    export_detectors fixOptsTime {} = .ok fixTimeRecord ∧
      ((fixOptsTime.detectors.all (fun nd => !setsXrayCompute nd.2) = true →
          fixTimeRecord.xrayCompute = false) ∧
        (fixOptsTime.detectors.all
            (fun nd => !setsXrayComputeBackground nd.2) = true →
          fixTimeRecord.xrayComputeBackground = false) ∧
        (fixOptsTime.detectors.all
            (fun nd => !setsXrayComputeCharacteristic nd.2) = true →
          fixTimeRecord.xrayComputeCharacteristic = false) ∧
        (fixOptsTime.detectors.all
            (fun nd => !setsComputeBSEDistribution nd.2) = true →
          fixTimeRecord.computeBSEDistribution = false) ∧
        (fixOptsTime.detectors.all
            (fun nd => !setsComputeBSEEnergy nd.2) = true →
          fixTimeRecord.computeBSEEnergy = false) ∧
        (fixOptsTime.detectors.all
            (fun nd => !setsComputeBSEAngular nd.2) = true →
          fixTimeRecord.computeBSEAngular = false) ∧
        fixTimeRecord.computeBSEDepth = false ∧
        fixTimeRecord.computeBSERadial = false ∧
        fixTimeRecord.computeBSESpatial = false ∧
        fixTimeRecord.computeBSELateral = false ∧
        fixTimeRecord.computeSEDistribution = false ∧
        fixTimeRecord.computeEnergyLossDistribution = false ∧
        fixTimeRecord.computeEnergyLossDepth = false ∧
        fixTimeRecord.computeEnergyLossLateral = false ∧
        fixTimeRecord.computeEnergyLossSpatial = false ∧
        fixTimeRecord.computeEnergyLossRadial = false ∧
        fixTimeRecord.computeElectronDistribution = false ∧
        fixTimeRecord.computeElectronDepth = false ∧
        fixTimeRecord.computeElectronRadial = false ∧
        fixTimeRecord.computeElectronSpatial = false ∧
        fixTimeRecord.computeElectronLateral = false) :=
  ⟨by decide,
    compute_flags_false_when_unset fixOptsTime {} fixTimeRecord (by decide)⟩

end Theorems
